import Mathlib

/-!
Verification of the FitScore calculator (fitscore_calculator.py) against its
natural-language specification.  The Python source is shallowly embedded:
strings are Lean strings (lists of characters), Python floats are modelled as
exact rationals, Python dictionaries with string keys as association lists,
and operations that can raise an exception (missing dictionary key, division
by zero) return an Option.  All inputs relevant here are ASCII, so Python
case folding agrees with Char.toLower and Python whitespace with
Char.isWhitespace.
-/

namespace FitScore

/-! ## String helpers (Python substring / lower / strip / split semantics) -/

/-- Case map of a string, modelling Python str.lower on ASCII text. -/
def lowerStr (s : String) : String := ⟨s.data.map Char.toLower⟩

/-- Boolean test that the pattern list is an initial segment of the text list. -/
def leadsWith : List Char → List Char → Bool
  | [], _ => true
  | _ :: _, [] => false
  | p :: ps, c :: cs => p == c && leadsWith ps cs

/-- Boolean substring occurrence test on character lists. -/
def hasSubList (pat : List Char) : List Char → Bool
  | [] => leadsWith pat []
  | text@(_ :: rest) => leadsWith pat text || hasSubList pat rest

/-- Python `sub in s` substring containment. -/
def containsSub (s sub : String) : Bool := hasSubList sub.data s.data

/-- Python `any(w in s for w in ws)`. -/
def containsAny (s : String) (ws : List String) : Bool := ws.any (fun w => containsSub s w)

/-- Python str.startswith for a one-character pattern set is modelled by the
general form: pattern is an initial segment of the string. -/
def startsWithStr (s pat : String) : Bool := leadsWith pat.data s.data

/-- Strip of leading and trailing whitespace on a character list. -/
def stripChars (l : List Char) : List Char :=
  ((l.dropWhile Char.isWhitespace).reverse.dropWhile Char.isWhitespace).reverse

/-- Python str.strip(). -/
def stripStr (s : String) : String := ⟨stripChars s.data⟩

/-- Split of a character list at a separator character, Python `s.split(sep)`
semantics: the empty list yields one empty field. -/
def splitCharList (sep : Char) : List Char → List (List Char)
  | [] => [[]]
  | c :: rest =>
    let r := splitCharList sep rest
    if c == sep then [] :: r
    else
      match r with
      | h :: t => (c :: h) :: t
      | [] => [[c]]

/-- Python `resume_text.split(chr(10))`, line list of a string. -/
def splitLines (s : String) : List String := (splitCharList '\n' s.data).map String.mk

/-- Python `sepjoin = chr(32).join(parts)` used for description assembly. -/
def strJoinSpace : List String → String
  | [] => ""
  | [x] => x
  | x :: rest => x ++ " " ++ strJoinSpace rest

/-! ## Static classifier tables (verbatim from the FitScoreCalculator constructor) -/

/-- default_weights dictionary, in Python insertion order. -/
def defaultWeights : List (String × ℚ) :=
  [ ("education", 0.20), ("career_trajectory", 0.20), ("company_relevance", 0.15),
    ("tenure_stability", 0.15), ("most_important_skills", 0.20), ("bonus_signals", 0.05),
    ("red_flags", -0.15) ]

/-- tier1_schools table. -/
def tier1Schools : List (String × List String) :=
  [ ("US_TOP15",
      [ "MIT", "Stanford", "Harvard", "Berkeley", "CMU", "Caltech",
        "Princeton", "Yale", "Columbia", "UPenn", "Cornell",
        "University of Chicago", "Northwestern", "Johns Hopkins", "Brown" ]),
    ("ENGINEERING_CS_ELITE",
      [ "University of Waterloo", "Georgia Tech", "UIUC", "UT Austin",
        "UW Seattle", "Purdue", "Virginia Tech" ]),
    ("INTERNATIONAL_ELITE",
      [ "Oxford", "Cambridge", "ETH Zurich", "University of Toronto",
        "IIT", "Tsinghua", "Peking University", "National University of Singapore",
        "University of Melbourne", "KAIST", "Technion" ]),
    ("BUSINESS_ELITE",
      [ "Wharton", "Harvard Business", "Stanford GSB", "Kellogg", "Booth", "Sloan" ]),
    ("MEDICAL_ELITE",
      [ "Harvard Medical", "Johns Hopkins", "UCSF", "Mayo Clinic",
        "Stanford Medical", "Penn Medical" ]),
    ("LAW_ELITE",
      [ "Harvard Law", "Yale Law", "Stanford Law", "Columbia Law",
        "NYU Law", "Chicago Law" ]) ]

/-- tier2_schools table. -/
def tier2Schools : List (String × List String) :=
  [ ("STRONG_UNIVERSITIES",
      [ "UCLA", "UCSD", "USC", "Michigan", "Wisconsin", "Washington",
        "North Carolina", "Virginia", "NYU", "Boston University",
        "Rice", "Vanderbilt", "Emory", "Georgetown", "Notre Dame",
        "Duke", "Dartmouth", "William & Mary", "Boston College" ]),
    ("ENGINEERING_STRONG",
      [ "Texas A&M", "Penn State", "Ohio State", "Arizona State",
        "UC Irvine", "UC Davis", "Rutgers", "Maryland",
        "UC Santa Barbara", "UC Santa Cruz", "Northeastern",
        "RIT", "WPI", "RPI", "Stevens Tech", "Colorado School of Mines" ]),
    ("INTERNATIONAL_STRONG",
      [ "McGill", "UBC", "Queen\x27s", "London School of Economics",
        "Imperial College", "University of Sydney", "ANU",
        "University of Hong Kong", "HKUST", "Sciences Po", "Bocconi" ]) ]

/-- specialty_programs table. -/
def specialtyPrograms : List (String × List String) :=
  [ ("CS_LEADERS",
      [ "MIT", "Stanford", "CMU", "Berkeley", "Waterloo", "UIUC", "Georgia Tech",
        "UT Austin", "UW Seattle" ]),
    ("ENGINEERING_LEADERS",
      [ "MIT", "Stanford", "Berkeley", "Caltech", "CMU", "Georgia Tech", "Purdue",
        "Michigan", "UIUC" ]),
    ("BUSINESS_MBA_LEADERS",
      [ "Wharton", "Harvard", "Stanford", "Kellogg", "Booth", "Sloan", "Columbia", "Tuck" ]),
    ("MEDICAL_LEADERS",
      [ "Harvard Medical", "Johns Hopkins", "UCSF", "Mayo Clinic", "Stanford Medical" ]),
    ("LAW_LEADERS",
      [ "Harvard Law", "Yale Law", "Stanford Law", "Columbia Law", "NYU Law",
        "Chicago Law" ]) ]

/-- elite_companies table. -/
def eliteCompanies : List (String × List String) :=
  [ ("TECH_STARTUP_ELITE",
      [ "Stripe", "Scale AI", "Databricks", "Canva", "Airbnb", "Uber",
        "Palantir", "Snowflake", "MongoDB", "Twilio" ]),
    ("TECH_ENTERPRISE_ELITE",
      [ "Google", "Meta", "Apple", "Amazon", "Microsoft", "Netflix",
        "Salesforce", "Oracle", "SAP", "Adobe" ]),
    ("BIG4_ACCOUNTING",
      [ "KPMG", "Deloitte", "EY", "PwC" ]),
    ("ELITE_LAW_FIRMS",
      [ "Cravath", "Skadden", "Sullivan & Cromwell", "Wachtell",
        "Davis Polk", "Simpson Thacher" ]),
    ("ELITE_HEALTHCARE",
      [ "Mayo Clinic", "Cleveland Clinic", "Johns Hopkins",
        "Massachusetts General", "UCSF Medical Center" ]) ]

/-! ## Institution scoring (_score_institution, _is_specialty_match, _get_institution_tier) -/

/-- Graduate-degree test used throughout the institution scorer: the degree
string is truthy and its lower case contains master or phd. -/
def gradDegree (degree_type : String) : Bool :=
  degree_type != "" &&
    (containsSub (lowerStr degree_type) "master" || containsSub (lowerStr degree_type) "phd")

/-- _is_specialty_match: the category key is inspected case-sensitively, the
field case-insensitively. -/
def isSpecialtyMatch (field category : String) : Bool :=
  let fieldLower := lowerStr field
  if containsSub category "CS" || containsSub category "COMPUTER" then
    containsAny fieldLower [ "computer", "software", "cs", "computing" ]
  else if containsSub category "ENGINEERING" then
    containsAny fieldLower [ "engineering", "mechanical", "electrical", "civil", "chemical" ]
  else if containsSub category "BUSINESS" || containsSub category "MBA" then
    containsAny fieldLower [ "business", "mba", "management", "finance", "economics" ]
  else if containsSub category "MEDICAL" then
    containsAny fieldLower [ "medical", "medicine", "health", "nursing", "pharmacy" ]
  else if containsSub category "LAW" then
    containsAny fieldLower [ "law", "legal", "juris", "jd" ]
  else false

/-- First category of a tier table one of whose school names occurs (lower
case) inside the already-lowered institution string.  The Python nested loops
return on the first matching school; since the returned value depends only on
the category, the first category with any matching school is equivalent. -/
def firstMatchCat (cats : List (String × List String)) (institutionLower : String) :
    Option String :=
  match cats with
  | [] => none
  | (name, schools) :: rest =>
    if schools.any (fun s => containsSub institutionLower (lowerStr s)) then some name
    else firstMatchCat rest institutionLower

/-- Specialty-program hit for non-tier schools: some (specialty, school) pair
with the school name inside the institution, a truthy field, and a specialty
match.  The Python loop returns the constant 8.0 on the first such pair. -/
def specialtyProgramHit (institutionLower field : String) : Bool :=
  specialtyPrograms.any (fun sp =>
    sp.2.any (fun school =>
      containsSub institutionLower (lowerStr school) && field != "" &&
        isSpecialtyMatch field sp.1))

/-- _score_institution. -/
def scoreInstitution (institution degree_type field : String) : ℚ :=
  let il := lowerStr institution
  match firstMatchCat tier1Schools il with
  | some category =>
    let b1 : ℚ := 9.5
    let b2 := if field != "" && isSpecialtyMatch field category then min 10 (b1 + 0.5) else b1
    if gradDegree degree_type then min 10 (b2 + 0.3) else b2
  | none =>
    match firstMatchCat tier2Schools il with
    | some category =>
      let b1 : ℚ := 7.5
      let b2 := if field != "" && isSpecialtyMatch field category then min 8.5 (b1 + 0.5) else b1
      if gradDegree degree_type then min 8.5 (b2 + 0.3) else b2
    | none =>
      if specialtyProgramHit il field then 8
      else if containsSub il "university" || containsSub il "college" then
        if gradDegree degree_type then min 6.5 ((5 : ℚ) + 0.5) else 5
      else 3

/-- Python str.title() on ASCII text: a letter is uppercased when the previous
character is not a letter, lowercased otherwise. -/
def titleCaseChars : List Char → Bool → List Char
  | [], _ => []
  | c :: rest, prevCased =>
    if c.isAlpha then (if prevCased then c.toLower else c.toUpper) :: titleCaseChars rest true
    else c :: titleCaseChars rest false

/-- category.replace(chr(95), chr(32)).title() used in tier labels. -/
def prettyCat (category : String) : String :=
  ⟨titleCaseChars (category.data.map (fun c => if c == '_' then ' ' else c)) false⟩

/-- _get_institution_tier. -/
def getInstitutionTier (institution : String) : String :=
  let il := lowerStr institution
  match firstMatchCat tier1Schools il with
  | some category => "Tier 1 - " ++ prettyCat category
  | none =>
    match firstMatchCat tier2Schools il with
    | some category => "Tier 2 - " ++ prettyCat category
    | none =>
      match firstMatchCat specialtyPrograms il with
      | some specialty => "Specialty - " ++ prettyCat specialty
      | none => "Tier 3"

/-! ## Work-experience extraction (_extract_work_experience) -/

/-- Record built by _extract_work_experience: the dictionary holds exactly the
keys title, company, duration and description (no end_date key is ever set). -/
structure WorkEntry where
  title : String
  company : String
  duration : String
  description : String
deriving Repr, DecidableEq

def titleKeywords : List String :=
  [ "engineer", "manager", "director", "analyst", "developer", "consultant",
    "lead", "senior", "principal", "staff" ]

def companyIndicators : List String :=
  [ "inc", "corp", "llc", "ltd", "company", "google", "microsoft", "amazon",
    "apple", "meta", "ibm", "oracle" ]

def skipWords : List String := [ "experience", "education", "skills", "bonus" ]

/-- Occurrence of a four-digit year range DDDD-DDDD at the head of the list. -/
def yearRangeAt : List Char → Bool
  | a :: b :: c :: d :: dash :: e :: f :: g :: h :: _ =>
    a.isDigit && b.isDigit && c.isDigit && d.isDigit && dash == '-' &&
      e.isDigit && f.isDigit && g.isDigit && h.isDigit
  | _ => false

/-- Tail test for the keyword year, an optional s, and a closing parenthesis. -/
def yearCloseAt (l : List Char) : Bool :=
  match l with
  | 'y' :: 'e' :: 'a' :: 'r' :: rest =>
    match rest with
    | 's' :: ')' :: _ => true
    | ')' :: _ => true
    | _ => false
  | _ => false

/-- Tail test for the keyword month, an optional s, and a closing parenthesis. -/
def monthCloseAt (l : List Char) : Bool :=
  match l with
  | 'm' :: 'o' :: 'n' :: 't' :: 'h' :: rest =>
    match rest with
    | 's' :: ')' :: _ => true
    | ')' :: _ => true
    | _ => false
  | _ => false

/-- Head match for the duration regex alternative with a parenthesised count:
an opening parenthesis, one or more digits, one or more whitespace characters,
then the closing keyword test. -/
def parenCountAt (closing : List Char → Bool) (l : List Char) : Bool :=
  match l with
  | '(' :: rest =>
    let ds := rest.takeWhile Char.isDigit
    if ds.isEmpty then false
    else
      let r1 := rest.drop ds.length
      let ws := r1.takeWhile Char.isWhitespace
      if ws.isEmpty then false else closing (r1.drop ws.length)
  | _ => false

/-- Existence of a match of a head test at some position of the list, the
semantics of re.search for the patterns used here. -/
def anyPosition (p : List Char → Bool) : List Char → Bool
  | [] => false
  | l@(_ :: rest) => p l || anyPosition p rest

/-- re.search of the duration pattern (year range, parenthesised years, or
parenthesised months) inside a line. -/
def hasDurationPattern (s : String) : Bool :=
  anyPosition
    (fun l => yearRangeAt l || parenCountAt yearCloseAt l || parenCountAt monthCloseAt l)
    s.data

/-- Company-window scan: the first of the next (at most four) lines that is
nonempty after stripping, contains no section keyword, and contains a company
indicator. -/
def findCompany : List String → String
  | [] => "Unknown Company"
  | x :: xs =>
    let nl := stripStr x
    if nl != "" && !containsAny (lowerStr nl) skipWords &&
        containsAny (lowerStr nl) companyIndicators then nl
    else findCompany xs

/-- Duration-window scan: the first of the next (at most four) lines matching
the duration pattern. -/
def findDuration : List String → String
  | [] => "Unknown"
  | x :: xs =>
    let nl := stripStr x
    if hasDurationPattern nl then nl else findDuration xs

/-- Description-window scan: bullet lines are collected; the scan stops at the
first nonempty non-bullet line that contains no section keyword. -/
def collectDesc : List String → List String
  | [] => []
  | x :: xs =>
    let nl := stripStr x
    if startsWithStr nl "-" || startsWithStr nl "•" then nl :: collectDesc xs
    else if nl != "" && !containsAny (lowerStr nl) skipWords then []
    else collectDesc xs

/-- Line loop of _extract_work_experience over the suffixes of the line list;
the forward windows of the Python code (four lines for company and duration,
nine for description) are the bounded takes of the remaining lines. -/
def extractLoop : List String → List WorkEntry
  | [] => []
  | line :: rest =>
    let l := stripStr line
    if titleKeywords.any (fun k => containsSub (lowerStr l) k) then
      { title := l,
        company := findCompany (rest.take 4),
        duration := findDuration (rest.take 4),
        description := strJoinSpace (collectDesc (rest.take 9)) } :: extractLoop rest
    else extractLoop rest

/-- _extract_work_experience. -/
def extractWorkExperience (resume_text : String) : List WorkEntry :=
  extractLoop (splitLines resume_text)

/-! ## Recency sort of the trajectory scorer

The Python code sorts with key `x.get(end_date, Present)` in reverse;
extraction never sets an end_date key, so the key is the constant Present.
Python sorts are stable and stability is preserved under reverse=True, which
the descending insertion sort below reproduces. -/

/-- Key function: the entries carry no end_date, so dict.get always yields the
default value Present. -/
def getEndDateKey (_ : WorkEntry) : String := "Present"

def charLtB (a b : Char) : Bool := a.toNat < b.toNat

/-- Lexicographic strict order on character lists. -/
def listLtB : List Char → List Char → Bool
  | [], [] => false
  | [], _ :: _ => true
  | _ :: _, [] => false
  | a :: as, b :: bs => charLtB a b || (a == b && listLtB as bs)

def strLtB (a b : String) : Bool := listLtB a.data b.data

/-- Stable descending insertion: an element moves past another only when its
key is strictly smaller, so elements with equal keys keep their order. -/
def insertDescByKey (x : WorkEntry) : List WorkEntry → List WorkEntry
  | [] => [x]
  | y :: ys =>
    if strLtB (getEndDateKey x) (getEndDateKey y) then y :: insertDescByKey x ys
    else x :: y :: ys

/-- work_experience.sort(key=..., reverse=True) as a stable descending sort. -/
def sortByEndDateDesc : List WorkEntry → List WorkEntry
  | [] => []
  | x :: xs => insertDescByKey x (sortByEndDateDesc xs)

/-! ## Tenure parsing (_calculate_tenure_years) -/

def natOfDigits (l : List Char) : ℕ :=
  l.foldl (fun a c => a * 10 + (c.toNat - '0'.toNat)) 0

/-- Value of an integer digit list with an optional fractional digit list. -/
def ratOfDigits (ds fs : List Char) : ℚ :=
  (natOfDigits ds : ℚ) + (natOfDigits fs : ℚ) / ((10 : ℚ) ^ fs.length)

/-- First successful application of a head matcher along the suffixes of a
list, the leftmost-match semantics of re.search. -/
def scanFirst (f : List Char → Option α) : List Char → Option α
  | [] => none
  | l@(_ :: rest) =>
    match f l with
    | some a => some a
    | none => scanFirst f rest

/-- Head match for the tenure pattern with parenthesised year count, returning
the captured number.  A decimal point not followed by digits makes the
optional fraction group empty, after which the whitespace requirement fails at
the point, exactly as in the regex. -/
def parenYearsNum (l : List Char) : Option ℚ :=
  match l with
  | '(' :: rest =>
    let ds := rest.takeWhile Char.isDigit
    if ds.isEmpty then none
    else
      let r1 := rest.drop ds.length
      let (val, r2) :=
        match r1 with
        | '.' :: r =>
          let fs := r.takeWhile Char.isDigit
          if fs.isEmpty then (ratOfDigits ds [], r1) else (ratOfDigits ds fs, r.drop fs.length)
        | _ => (ratOfDigits ds [], r1)
      let ws := r2.takeWhile Char.isWhitespace
      if ws.isEmpty then none
      else if yearCloseAt (r2.drop ws.length) then some val else none
  | _ => none

/-- Head match for DDDD-DDDD returning end year minus start year as in the
Python subtraction of the two captured integers. -/
def yearRangeNum (l : List Char) : Option ℚ :=
  match l with
  | a :: b :: c :: d :: dash :: e :: f :: g :: h :: _ =>
    if a.isDigit && b.isDigit && c.isDigit && d.isDigit && dash == '-' &&
        e.isDigit && f.isDigit && g.isDigit && h.isDigit then
      some ((natOfDigits [e, f, g, h] : ℤ) - (natOfDigits [a, b, c, d] : ℤ) : ℤ)
    else none
  | _ => none

/-- Tail test for the bare keyword year (optional s, no closing parenthesis). -/
def yearKwAt (l : List Char) : Bool := leadsWith [ 'y', 'e', 'a', 'r' ] l

/-- Tail test for the bare keyword month. -/
def monthKwAt (l : List Char) : Bool := leadsWith [ 'm', 'o', 'n', 't', 'h' ] l

/-- Head match for a bare number followed by whitespace and the keyword year. -/
def yearsOnlyNum (l : List Char) : Option ℚ :=
  let ds := l.takeWhile Char.isDigit
  if ds.isEmpty then none
  else
    let r1 := l.drop ds.length
    let (val, r2) :=
      match r1 with
      | '.' :: r =>
        let fs := r.takeWhile Char.isDigit
        if fs.isEmpty then (ratOfDigits ds [], r1) else (ratOfDigits ds fs, r.drop fs.length)
      | _ => (ratOfDigits ds [], r1)
    let ws := r2.takeWhile Char.isWhitespace
    if ws.isEmpty then none
    else if yearKwAt (r2.drop ws.length) then some val else none

/-- Head match for an integer followed by whitespace and the keyword month. -/
def monthsNum (l : List Char) : Option ℚ :=
  let ds := l.takeWhile Char.isDigit
  if ds.isEmpty then none
  else
    let r1 := l.drop ds.length
    let ws := r1.takeWhile Char.isWhitespace
    if ws.isEmpty then none
    else if monthKwAt (r1.drop ws.length) then some (natOfDigits ds : ℚ) else none

/-- Anchored match of a whole stripped string as a number with optional
fractional part. -/
def fullNumber (l : List Char) : Option ℚ :=
  let ds := l.takeWhile Char.isDigit
  if ds.isEmpty then none
  else
    match l.drop ds.length with
    | [] => some (ratOfDigits ds [])
    | '.' :: r =>
      let fs := r.takeWhile Char.isDigit
      if fs.isEmpty then none
      else if (r.drop fs.length).isEmpty then some (ratOfDigits ds fs) else none
    | _ => none

/-- _calculate_tenure_years: the five patterns are tried in source order; an
unparsable nonempty duration defaults to one year. -/
def calculateTenureYears (duration : String) : ℚ :=
  if duration = "" || duration = "Unknown" then 0
  else
    let dl := (lowerStr duration).data
    match scanFirst parenYearsNum dl with
    | some q => q
    | none =>
      match scanFirst yearRangeNum duration.data with
      | some q => q
      | none =>
        match scanFirst yearsOnlyNum dl with
        | some q => q
        | none =>
          match scanFirst monthsNum dl with
          | some m => m / 12
          | none =>
            match fullNumber (stripChars duration.data) with
            | some q => q
            | none => 1

/-! ## Title, role and company scoring helpers -/

/-- _score_job_title. -/
def scoreJobTitle (title : String) : ℚ :=
  let tl := lowerStr title
  if containsAny tl [ "ceo", "cto", "cfo", "vp", "director" ] then 9
  else if containsAny tl [ "senior", "lead", "principal" ] then 7
  else if containsAny tl [ "manager", "supervisor" ] then 6
  else if containsAny tl [ "engineer", "analyst", "developer" ] then 5
  else 3

/-- _detect_role_type. -/
def detectRoleType (job_description : String) : String :=
  let jd := lowerStr job_description
  if containsAny jd [ "software", "engineer", "developer", "programmer" ] then "technical"
  else if containsAny jd [ "manager", "director", "lead" ] then "management"
  else if containsAny jd [ "sales", "account", "business" ] then "sales"
  else if containsAny jd [ "legal", "attorney", "law" ] then "legal"
  else if containsAny jd [ "accounting", "cpa", "audit" ] then "accounting"
  else if containsAny jd [ "healthcare", "medical", "nurse" ] then "healthcare"
  else "general"

/-- _detect_company_type. -/
def detectCompanyType (job_description : String) : String :=
  let jd := lowerStr job_description
  if containsAny jd [ "startup", "seed", "series", "early-stage" ] then "startup"
  else if containsAny jd [ "enterprise", "fortune", "large company" ] then "enterprise"
  else if containsAny jd [ "law firm", "legal" ] then "law_firm"
  else if containsAny jd [ "accounting", "cpa" ] then "accounting"
  else if containsAny jd [ "healthcare", "hospital" ] then "healthcare"
  else "general"

/-- Lowered containment of any name from an elite-company list. -/
def anyEliteIn (names : List String) (companyLower : String) : Bool :=
  names.any (fun c => containsSub companyLower (lowerStr c))

/-- _score_company_relevance. -/
def scoreCompanyRelevance (company role_type company_type : String) : ℚ :=
  let cl := lowerStr company
  if role_type = "technical" then
    if company_type = "startup" then
      if anyEliteIn [ "Stripe", "Scale AI", "Databricks", "Canva", "Airbnb", "Uber",
          "Palantir", "Snowflake", "MongoDB", "Twilio" ] cl then 9 else 5
    else if company_type = "enterprise" then
      if anyEliteIn [ "Google", "Meta", "Apple", "Amazon", "Microsoft", "Netflix",
          "Salesforce", "Oracle", "SAP", "Adobe" ] cl then 9 else 5
    else 5
  else if role_type = "accounting" then
    if anyEliteIn [ "KPMG", "Deloitte", "EY", "PwC" ] cl then 9 else 5
  else if role_type = "legal" then
    if anyEliteIn [ "Cravath", "Skadden", "Sullivan & Cromwell", "Wachtell",
        "Davis Polk", "Simpson Thacher" ] cl then 9 else 5
  else if role_type = "healthcare" then
    if anyEliteIn [ "Mayo Clinic", "Cleveland Clinic", "Johns Hopkins",
        "Massachusetts General", "UCSF Medical Center" ] cl then 9 else 5
  else 5

/-! ## Education extraction (_extract_education_info)

The two regular expressions are compiled with IGNORECASE and applied with
finditer (leftmost, non-overlapping, greedy with backtracking).  They are
reproduced below as explicit scanners with the same match selection. -/

structure EducationEntry where
  institution : String
  degree_type : String
  field : String
deriving Repr, DecidableEq

/-- Character class of the middle part of the institution pattern:
letters, whitespace and ampersand. -/
def isClassP1 (c : Char) : Bool := c.isAlpha || c.isWhitespace || c == '&'

/-- Character class of the field group of the degree pattern:
letters and whitespace. -/
def isClassField (c : Char) : Bool := c.isAlpha || c.isWhitespace

/-- Case-insensitive head match of an already lowered pattern. -/
def ciLeads : List Char → List Char → Bool
  | [], _ => true
  | _ :: _, [] => false
  | p :: ps, c :: cs => p == c.toLower && ciLeads ps cs

/-- Suffix alternation University, College, Institute, School of the
institution pattern; returns the matched length. -/
def p1SuffixAt (l : List Char) : Option ℕ :=
  if ciLeads [ 'u', 'n', 'i', 'v', 'e', 'r', 's', 'i', 't', 'y' ] l then some 10
  else if ciLeads [ 'c', 'o', 'l', 'l', 'e', 'g', 'e' ] l then some 7
  else if ciLeads [ 'i', 'n', 's', 't', 'i', 't', 'u', 't', 'e' ] l then some 9
  else if ciLeads [ 's', 'c', 'h', 'o', 'o', 'l' ] l then some 6
  else none

/-- Backtracking of the greedy middle part: the largest offset j between one
and the class-run length at which the suffix alternation matches. -/
def p1FindJ (rest : List Char) : ℕ → Option (ℕ × ℕ)
  | 0 => none
  | j + 1 =>
    match p1SuffixAt (rest.drop (j + 1)) with
    | some sl => some (j + 1, sl)
    | none => p1FindJ rest j

/-- Match of the institution pattern at the head of the list: a letter, one or
more class characters, then the suffix word; greedy, so the last feasible
suffix occurrence inside the class run is chosen.  Returns the total length. -/
def p1MatchAt : List Char → Option ℕ
  | [] => none
  | c :: rest =>
    if c.isAlpha then
      match p1FindJ rest ((rest.takeWhile isClassP1).length) with
      | some (j, sl) => some (1 + j + sl)
      | none => none
    else none

/-- finditer of the institution pattern: leftmost matches, continuing after
each match end. -/
def p1Scan : List Char → List (List Char)
  | [] => []
  | l@(_ :: rest) =>
    match p1MatchAt l with
    | some n => l.take n :: p1Scan (rest.drop (n - 1))
    | none => p1Scan rest
  termination_by l => l.length
  decreasing_by
    · simp only [List.length_cons, List.length_drop]
      omega
    · simp

/-- Field part of the degree pattern: whitespace run of length between one and
the available run, then one or more field-class characters (greedy).  Tried
with the longest whitespace first, as the regex engine does.  Returns the
whitespace length and the field length. -/
def p2DescW2 (q : List Char) : ℕ → Option (ℕ × ℕ)
  | 0 => none
  | w + 1 =>
    let f := ((q.drop (w + 1)).takeWhile isClassField).length
    if f ≠ 0 then some (w + 1, f) else p2DescW2 q w

def p2WsField (q : List Char) : Option (ℕ × ℕ) :=
  p2DescW2 q ((q.takeWhile Char.isWhitespace).length)

/-- Branches of the optional group at a fixed first-whitespace length: the
alternatives of and in are tried before the empty branch, as in the regex.
Returns (first whitespace, keyword length, second whitespace, field length). -/
def p2Branches (p : List Char) (w1 : ℕ) : Option (ℕ × ℕ × ℕ × ℕ) :=
  let q := p.drop w1
  match (if ciLeads [ 'o', 'f' ] q then p2WsField (q.drop 2) else none) with
  | some (w2, fl) => some (w1, 2, w2, fl)
  | none =>
    match (if ciLeads [ 'i', 'n' ] q then p2WsField (q.drop 2) else none) with
    | some (w2, fl) => some (w1, 2, w2, fl)
    | none =>
      match p2WsField q with
      | some (w2, fl) => some (w1, 0, w2, fl)
      | none => none

/-- Backtracking of the greedy first whitespace run, longest first. -/
def p2DescW (p : List Char) : ℕ → Option (ℕ × ℕ × ℕ × ℕ)
  | 0 => none
  | w + 1 =>
    match p2Branches p (w + 1) with
    | some r => some r
    | none => p2DescW p w

/-- Continuation of the degree pattern after the degree keyword. -/
def p2AfterAlt (p : List Char) : Option (ℕ × ℕ × ℕ × ℕ) :=
  p2DescW p ((p.takeWhile Char.isWhitespace).length)

/-- Degree keyword alternation in source order, with pattern lengths. -/
def p2Alts : List (List Char × ℕ) :=
  [ ([ 'b', 'a', 'c', 'h', 'e', 'l', 'o', 'r' ], 8),
    ([ 'm', 'a', 's', 't', 'e', 'r' ], 6),
    ([ 'p', 'h', 'd' ], 3),
    ([ 'm', 'b', 'a' ], 3),
    ([ 'm', 's' ], 2),
    ([ 'b', 's' ], 2),
    ([ 'b', 'a' ], 2) ]

/-- Alternation with backtracking: a keyword whose continuation fails lets the
next alternative be tried at the same position. -/
def p2TryAlts (s : List Char) : List (List Char × ℕ) → Option (ℕ × ℕ × ℕ × ℕ × ℕ)
  | [] => none
  | (pat, len) :: alts =>
    if ciLeads pat s then
      match p2AfterAlt (s.drop len) with
      | some (w1, kw, w2, fl) => some (len, w1, kw, w2, fl)
      | none => p2TryAlts s alts
    else p2TryAlts s alts

/-- finditer of the degree pattern; each match yields group 1 (the keyword as
written in the text) and group 2 (the field). -/
def p2Scan : List Char → List (List Char × List Char)
  | [] => []
  | l@(_ :: rest) =>
    match p2TryAlts l p2Alts with
    | some (len, w1, kw, w2, fl) =>
      let total := len + w1 + kw + w2 + fl
      (l.take len, (l.drop (len + w1 + kw + w2)).take fl) :: p2Scan (rest.drop (total - 1))
    | none => p2Scan rest
  termination_by l => l.length
  decreasing_by
    · simp only [List.length_cons, List.length_drop]
      omega
    · simp

/-- _extract_education_info: entries of the first pattern (institution, with
Unknown degree and General field), then entries of the second pattern, whose
group 1 lands in the institution slot and whose group 2 fills both the
degree_type and the field slot, exactly as the Python index juggling does. -/
def extractEducationInfo (resume_text : String) : List EducationEntry :=
  (p1Scan resume_text.data).map
    (fun m => { institution := ⟨m⟩, degree_type := "Unknown", field := "General" })
  ++ (p2Scan resume_text.data).map
    (fun m => { institution := ⟨m.1⟩, degree_type := ⟨m.2⟩, field := ⟨m.2⟩ })

/-! ## Component evaluators -/

structure InstRecord where
  institution : String
  degree : String
  field : String
  score : ℚ
  tier : String
deriving Repr, DecidableEq

/-- Details record of _evaluate_education; tier_breakdown is created empty and
never written. -/
structure EducationDetails where
  institutions : List InstRecord
  total_score : ℚ
  tier_breakdown : List (String × ℚ)
  strengths : List String
  concerns : List String
  tier : String
deriving Repr, DecidableEq

/-- _evaluate_education. -/
def evaluateEducation (resume_text _job_description : String) : ℚ × EducationDetails :=
  let info := extractEducationInfo resume_text
  let records := info.map (fun e =>
    { institution := e.institution, degree := e.degree_type, field := e.field,
      score := scoreInstitution e.institution e.degree_type e.field,
      tier := getInstitutionTier e.institution : InstRecord })
  let total := (info.map (fun e => scoreInstitution e.institution e.degree_type e.field)).sum
  let (avg, concerns) : ℚ × List String :=
    if info.isEmpty then (1, [ "No education information found" ])
    else (total / (info.length : ℚ), [])
  let grads := info.filter (fun e =>
    containsSub (lowerStr e.degree_type) "master" || containsSub (lowerStr e.degree_type) "phd")
  let (avg2, strengths) : ℚ × List String :=
    if !grads.isEmpty then (min 10 (avg + 1), [ "Graduate degree(s) present" ]) else (avg, [])
  let tier := match info with
    | [] => "No Education"
    | e :: _ => getInstitutionTier e.institution
  (avg2,
    { institutions := records, total_score := avg2, tier_breakdown := [],
      strengths := strengths, concerns := concerns, tier := tier })

def leadershipWords : List String :=
  [ "manager", "director", "lead", "head", "chief", "vp", "cto", "ceo", "principal", "staff" ]

def scopeWords : List String :=
  [ "team", "budget", "revenue", "strategy", "architect", "cross-functional", "stakeholder" ]

def ownershipWords : List String :=
  [ "owned", "led", "managed", "responsible for", "delivered", "launched", "improved" ]

def complexityWords : List String :=
  [ "scalable", "distributed", "microservices", "architecture", "system design",
    "technical leadership" ]

/-- Leadership indicator of a position: keyword in the lowered title. -/
def leadB (e : WorkEntry) : Bool := containsAny (lowerStr e.title) leadershipWords

/-- Scope indicator: keyword in the lowered description. -/
def scopeB (e : WorkEntry) : Bool := containsAny (lowerStr e.description) scopeWords

/-- Ownership indicator: keyword in the lowered description. -/
def ownB (e : WorkEntry) : Bool := containsAny (lowerStr e.description) ownershipWords

/-- Complexity indicator: keyword in the lowered description. -/
def cplxB (e : WorkEntry) : Bool := containsAny (lowerStr e.description) complexityWords

/-- Per-position composite score of the trajectory loop: title score plus the
four indicator bonuses. -/
def positionScore (e : WorkEntry) : ℚ :=
  scoreJobTitle e.title + (if leadB e then 2 else 0) + (if scopeB e then 1.5 else 0) +
    (if ownB e then 1 else 0) + (if cplxB e then 1 else 0)

structure PositionRecord where
  title : String
  company : String
  duration : String
  score : ℚ
  leadership : Bool
  scope : Bool
  ownership : Bool
  complexity : Bool
deriving Repr, DecidableEq

def mkPositionRecord (e : WorkEntry) : PositionRecord :=
  { title := e.title, company := e.company, duration := e.duration,
    score := positionScore e, leadership := leadB e, scope := scopeB e,
    ownership := ownB e, complexity := cplxB e }

structure CareerDetails where
  positions : List PositionRecord
  progression_pattern : String
  leadership_roles : ℕ
  scope_increases : ℕ
  ownership_indicators : ℕ
  complexity_growth : ℕ
  score : ℚ
  progression_level : String
deriving Repr, DecidableEq

inductive CareerOutcome where
  | error (msg : String) (score : ℚ)
  | ok (d : CareerDetails)
deriving Repr, DecidableEq

/-- _evaluate_career_trajectory.  The per-position loop accumulates the score
list in order and counts each indicator over all positions; the decision
ladder reads the first three scores of the (recency-sorted) list. -/
def evaluateCareerTrajectory (resume_text _job_description : String) : ℚ × CareerOutcome :=
  match sortByEndDateDesc (extractWorkExperience resume_text) with
  | [] => (1, .error "No work experience found" 1)
  | entries@(_ :: _) =>
    let scores := entries.map positionScore
    let totalLeadership := entries.countP leadB
    let totalScope := entries.countP scopeB
    let totalOwnership := entries.countP ownB
    let totalComplexity := entries.countP cplxB
    let avg := scores.sum / (scores.length : ℚ)
    let (progressionScore, pat, lvl) : ℚ × String × String :=
      match scores with
      | s0 :: s1 :: s2 :: _ =>
        if s0 ≥ 9 ∧ s1 ≥ 8 ∧ totalLeadership ≥ 2 ∧ totalOwnership ≥ 2 then
          (9.5, "Exceptional progression with leadership and ownership", "Exceptional (9.5-10.0)")
        else if s0 > s1 ∧ s1 > s2 ∧ s0 ≥ 7.5 ∧ totalLeadership ≥ 1 then
          (9, "Clear upward progression with leadership", "Clear Upward (9.0-9.4)")
        else if s0 > s2 ∧ s0 ≥ 7 ∧ totalScope ≥ 1 then
          (8, "Strong progression with scope growth", "Strong (8.0-8.9)")
        else if s0 ≥ 6 ∧ totalOwnership ≥ 1 then
          (7, "Good progression with ownership", "Good (7.0-7.9)")
        else if s0 ≥ 5 then (6, "Steady progression", "Steady (6.0-6.9)")
        else if s0 ≥ 4 then (4, "Limited progression", "Limited (4.0-5.9)")
        else (1, "No clear progression", "No Progression (1.0-3.9)")
      | _ =>
        if avg ≥ 8 then (8, "", "")
        else if avg ≥ 6 then (6, "", "")
        else (4, "", "")
    (progressionScore,
      .ok { positions := entries.map mkPositionRecord, progression_pattern := pat,
            leadership_roles := totalLeadership, scope_increases := totalScope,
            ownership_indicators := totalOwnership, complexity_growth := totalComplexity,
            score := progressionScore, progression_level := lvl })

structure CompanyRecord where
  company : String
  role : String
  relevance_score : ℚ
deriving Repr, DecidableEq

structure CompanyDetails where
  role_type : String
  target_company_type : String
  companies : List CompanyRecord
  relevance_score : ℚ
deriving Repr, DecidableEq

inductive CompanyOutcome where
  | error (msg : String) (score : ℚ)
  | ok (d : CompanyDetails)
deriving Repr, DecidableEq

/-- _evaluate_company_relevance. -/
def evaluateCompanyRelevance (resume_text job_description : String) : ℚ × CompanyOutcome :=
  let work := extractWorkExperience resume_text
  let roleType := detectRoleType job_description
  let companyType := detectCompanyType job_description
  if work.isEmpty then (1, .error "No work experience found" 1)
  else
    let total := (work.map (fun p => scoreCompanyRelevance p.company roleType companyType)).sum
    let avg := total / (work.length : ℚ)
    (avg,
      .ok { role_type := roleType, target_company_type := companyType,
            companies := work.map (fun p =>
              { company := p.company, role := p.title,
                relevance_score := scoreCompanyRelevance p.company roleType companyType }),
            relevance_score := avg })

/-! ## Tenure stability (_evaluate_tenure_stability) -/

def excludeTenureWords : List String :=
  [ "intern", "internship", "co-op", "coop", "part-time", "parttime" ]

/-- Exclusion condition of the tenure loop: one of the six keywords occurs in
the lowered title. -/
def isExcludedTitle (title : String) : Bool :=
  excludeTenureWords.any (fun w => containsSub (lowerStr title) w)

/-- Flattened elite-company name list, as assembled before the tenure loop. -/
def eliteCompaniesAll : List String := (eliteCompanies.map (fun p => p.2)).flatten

/-- Elite test of the tenure loop. -/
def isEliteCompany (company : String) : Bool :=
  eliteCompaniesAll.any (fun c => containsSub (lowerStr company) (lowerStr c))

structure TenurePos where
  company : String
  title : String
  tenure_years : ℚ
  is_elite_company : Bool
deriving Repr, DecidableEq

structure ExcludedPos where
  position : String
  company : String
  reason : String
deriving Repr, DecidableEq

def mkExcludedRecord (e : WorkEntry) : ExcludedPos :=
  { position := e.title, company := e.company,
    reason := "Internship/Co-op/Part-time (excluded from tenure calculation)" }

structure TenureAcc where
  total_tenure : ℚ
  valid_positions : ℕ
  internship_count : ℕ
  elite_company_tenure : ℚ
  positions : List TenurePos
  excluded : List ExcludedPos
deriving Repr, DecidableEq

/-- Position loop of _evaluate_tenure_stability: an excluded title is recorded
and counted and the loop continues; otherwise a positive parsed tenure is
accumulated, with elite tenure tracked on the side. -/
def tenureLoop : List WorkEntry → TenureAcc
  | [] => ⟨0, 0, 0, 0, [], []⟩
  | e :: rest =>
    let a := tenureLoop rest
    if isExcludedTitle e.title then
      { a with internship_count := a.internship_count + 1,
               excluded := mkExcludedRecord e :: a.excluded }
    else
      let ty := calculateTenureYears e.duration
      if 0 < ty then
        let elite := isEliteCompany e.company
        { a with total_tenure := ty + a.total_tenure,
                 valid_positions := a.valid_positions + 1,
                 elite_company_tenure := (if elite then ty else 0) + a.elite_company_tenure,
                 positions := { company := e.company, title := e.title, tenure_years := ty,
                                is_elite_company := elite } :: a.positions }
      else a

structure TenureDetails where
  positions : List TenurePos
  average_tenure : ℚ
  tenure_pattern : String
  stability_score : ℚ
  excluded_positions : List ExcludedPos
  internship_count : ℕ
  elite_company_tenure : ℚ
  tenure_level : String
  elite_tenure_bonus : Option ℚ
  internship_bonus : Option ℚ
deriving Repr, DecidableEq

inductive TenureOutcome where
  | error (msg : String) (score : ℚ)
  | ok (d : TenureDetails)
deriving Repr, DecidableEq

/-- Scoring tail of _evaluate_tenure_stability after the position loop:
zero valid positions short-circuit, band lookup on the average, the two
bonuses in source order, and the details record. -/
def tenureResult (acc : TenureAcc) : ℚ × TenureOutcome :=
  if acc.valid_positions = 0 then (1, .error "No valid full-time positions found" 1)
  else
    let avg := acc.total_tenure / (acc.valid_positions : ℚ)
      let (base, pat, lvl) : ℚ × String × String :=
        if avg ≥ 3 then (9.5, "Elite stability (3+ years average)", "Elite (9.5-10.0)")
        else if avg ≥ 2.5 then (8.5, "Strong stability (2.5-3 years average)", "Strong (8.5-9.4)")
        else if avg ≥ 2 then (7.5, "Good stability (2-2.5 years average)", "Good (7.5-8.4)")
        else if avg ≥ 1.5 then
          (6.5, "Reasonable stability (1.5-2 years average)", "Reasonable (6.5-7.4)")
        else if avg ≥ 1 then
          (5.5, "Some job hopping (1-1.5 years average)", "Some Hopping (5.5-6.4)")
        else if avg ≥ 0.5 then
          (4, "Frequent job changes (0.5-1 year average)", "Frequent Changes (4.0-5.4)")
        else (1, "Very short tenures (less than 0.5 years average)", "Very Short (1.0-3.9)")
      let (s1, eliteBonus) : ℚ × Option ℚ :=
        if acc.elite_company_tenure > 0 then
          let eb := min 0.5 (acc.elite_company_tenure * 0.1)
          (min 10 (base + eb), some eb)
        else (base, none)
      let (s2, internBonus) : ℚ × Option ℚ :=
        if acc.internship_count ≥ 3 then (min 10 (s1 + 0.3), some 0.3) else (s1, none)
      (s2,
        .ok { positions := acc.positions, average_tenure := avg, tenure_pattern := pat,
              stability_score := s2, excluded_positions := acc.excluded,
              internship_count := acc.internship_count,
              elite_company_tenure := acc.elite_company_tenure, tenure_level := lvl,
              elite_tenure_bonus := eliteBonus, internship_bonus := internBonus })

/-- _evaluate_tenure_stability: empty-extraction short-circuit, then the
position loop and its scoring tail. -/
def evaluateTenureStability (resume_text _job_description : String) : ℚ × TenureOutcome :=
  if (extractWorkExperience resume_text).isEmpty then (1, .error "No work experience found" 1)
  else tenureResult (tenureLoop (extractWorkExperience resume_text))

/-! ## Skills match (_evaluate_most_important_skills) -/

/-- Technical skill vocabulary shared by _extract_required_skills and
_extract_candidate_skills. -/
def techSkills : List String :=
  [ "python", "java", "javascript", "typescript", "go", "rust", "c++", "c#", "php",
    "ruby", "swift", "kotlin", "scala",
    "react", "vue", "angular", "node.js", "express", "django", "flask", "spring",
    "laravel", "asp.net",
    "aws", "azure", "gcp", "docker", "kubernetes", "jenkins", "gitlab", "github",
    "terraform", "ansible",
    "sql", "mysql", "postgresql", "mongodb", "redis", "elasticsearch", "dynamodb",
    "cassandra",
    "machine learning", "ai", "data science", "tensorflow", "pytorch", "scikit-learn",
    "pandas", "numpy", "spark", "hadoop",
    "ios", "android", "react native", "flutter", "xamarin", "electron",
    "graphql", "rest api", "microservices", "serverless", "blockchain", "cybersecurity",
    "devops", "sre" ]

/-- _extract_required_skills. -/
def extractRequiredSkills (job_description : String) : List String :=
  techSkills.filter (fun skill => containsSub (lowerStr job_description) skill)

/-- _extract_candidate_skills. -/
def extractCandidateSkills (resume_text : String) : List String :=
  techSkills.filter (fun skill => containsSub (lowerStr resume_text) skill)

/-- _skill_matches. -/
def skillMatches (required_skill : String) (candidate_skills : List String) : Bool :=
  (candidate_skills.map lowerStr).contains (lowerStr required_skill)

/-- Details record of the skills evaluator; the field matched models the
details key named matches in the source (matches is reserved in Lean). -/
structure SkillsDetails where
  required_skills : List String
  candidate_skills : List String
  matched : List String
  missing : List String
  match_percentage : ℚ
  score : ℚ
deriving Repr, DecidableEq

inductive SkillsOutcome where
  | error (msg : String) (score : ℚ)
  | ok (d : SkillsDetails)
deriving Repr, DecidableEq

/-- _evaluate_most_important_skills. -/
def evaluateMostImportantSkills (resume_text job_description : String) : ℚ × SkillsOutcome :=
  let required := extractRequiredSkills job_description
  let candidate := extractCandidateSkills resume_text
  if required.isEmpty then (5, .error "No required skills identified" 5)
  else
    let matched := required.filter (fun s => skillMatches s candidate)
    let missing := required.filter (fun s => !skillMatches s candidate)
    let pct := (matched.length : ℚ) / (required.length : ℚ) * 100
    let score : ℚ :=
      if pct ≥ 90 then 9
      else if pct ≥ 80 then 7.5
      else if pct ≥ 70 then 6
      else if pct ≥ 50 then 4
      else 1
    (score,
      .ok { required_skills := required, candidate_skills := candidate, matched := matched,
            missing := missing, match_percentage := pct, score := score })

/-! ## Bonus signals and red flags -/

def exceptionalSignals : List String :=
  [ "patent", "published", "forbes", "founder", "board", "olympic",
    "military", "ted talk", "book", "award", "media coverage" ]

def strongSignals : List String :=
  [ "open source", "speaking", "teaching", "certification",
    "hackathon", "leadership", "volunteer", "side project" ]

def someSignals : List String :=
  [ "portfolio", "community", "course", "competition", "language" ]

structure BonusDetails where
  signals_found : List String
  total_score : ℚ
deriving Repr, DecidableEq

/-- _evaluate_bonus_signals. -/
def evaluateBonusSignals (resume_text _job_description : String) : ℚ × BonusDetails :=
  let rl := lowerStr resume_text
  let exc := exceptionalSignals.filter (fun s => containsSub rl s)
  let str := strongSignals.filter (fun s => containsSub rl s)
  let som := someSignals.filter (fun s => containsSub rl s)
  let raw : ℚ := 5 * (exc.length : ℚ) + 3 * (str.length : ℚ) + 1 * (som.length : ℚ)
  let final := min 5 raw
  (final,
    { signals_found := exc.map (fun s => "Exceptional: " ++ s)
        ++ str.map (fun s => "Strong: " ++ s) ++ som.map (fun s => "Some: " ++ s),
      total_score := final })

def majorFlags : List String :=
  [ "falsified", "plagiarized", "criminal", "ethical violation", "diploma mill",
    "unaccredited" ]

def moderateFlags : List String :=
  [ "job hopping", "employment gap", "no progression", "short tenure",
    "concerning pattern" ]

def minorFlags : List String :=
  [ "overqualified", "location mismatch", "missing certification" ]

structure RedFlagsDetails where
  flags_found : List String
  penalty : ℚ
deriving Repr, DecidableEq

/-- _evaluate_red_flags. -/
def evaluateRedFlags (resume_text _job_description : String) : ℚ × RedFlagsDetails :=
  let rl := lowerStr resume_text
  let maj := majorFlags.filter (fun s => containsSub rl s)
  let mod := moderateFlags.filter (fun s => containsSub rl s)
  let mnr := minorFlags.filter (fun s => containsSub rl s)
  let penalty : ℚ := -15 * (maj.length : ℚ) - 10 * (mod.length : ℚ) - 5 * (mnr.length : ℚ)
  (penalty,
    { flags_found := maj.map (fun s => "Major: " ++ s)
        ++ mod.map (fun s => "Moderate: " ++ s) ++ mnr.map (fun s => "Minor: " ++ s),
      penalty := penalty })

/-! ## Weight resolver -/

/-- Dictionary lookup weights[k]; a missing key is a KeyError, modelled as
none. -/
def lookupW (w : List (String × ℚ)) (k : String) : Option ℚ :=
  (w.find? (fun p => p.1 == k)).map (fun p => p.2)

/-- Dictionary update d[k] = f(d[k]); a missing key is a KeyError. -/
def updW (w : List (String × ℚ)) (k : String) (f : ℚ → ℚ) : Option (List (String × ℚ)) :=
  match w with
  | [] => none
  | (k2, v) :: rest =>
    if k2 == k then some ((k2, f v) :: rest)
    else (updW rest k f).map (fun r => (k2, v) :: r)

/-- _adjust_weights_for_collateral: at most one of three keyword-triggered
shifts, then division of every non-penalty value by the total of all values
whenever that total differs from one.  A zero total would be a Python
ZeroDivisionError, modelled as none. -/
def adjustWeightsForCollateral (weights : List (String × ℚ)) (collateral : String) :
    Option (List (String × ℚ)) :=
  let c := lowerStr collateral
  let adjusted :=
    if containsSub c "startup" || containsSub c "early-stage" then do
      let w1 ← updW weights "most_important_skills" (fun v => v + 0.05)
      let w2 ← updW w1 "company_relevance" (fun v => v + 0.05)
      let w3 ← updW w2 "education" (fun v => v - 0.05)
      updW w3 "tenure_stability" (fun v => v - 0.05)
    else if containsSub c "enterprise" || containsSub c "large company" then do
      let w1 ← updW weights "education" (fun v => v + 0.05)
      let w2 ← updW w1 "tenure_stability" (fun v => v + 0.05)
      let w3 ← updW w2 "most_important_skills" (fun v => v - 0.05)
      updW w3 "company_relevance" (fun v => v - 0.05)
    else if containsSub c "leadership" || containsSub c "management" then do
      let w1 ← updW weights "career_trajectory" (fun v => v + 0.05)
      let w2 ← updW w1 "bonus_signals" (fun v => v + 0.02)
      updW w2 "most_important_skills" (fun v => v - 0.07)
    else some weights
  match adjusted with
  | none => none
  | some aw =>
    let total := (aw.map (fun p => p.2)).sum
    if total = 1 then some aw
    else if total = 0 then none
    else some (aw.map (fun p => if p.1 == "red_flags" then p else (p.1, p.2 / total)))

/-- Local weight resolution of calculate_fitscore with the Insight Service
disabled: company_weights or the defaults (an empty dictionary is falsy), then
the collateral adjustment when the collateral is truthy. -/
def resolveLocalWeights (companyWeights : Option (List (String × ℚ)))
    (collateral : Option String) : Option (List (String × ℚ)) :=
  let w := match companyWeights with
    | some cw => if cw.isEmpty then defaultWeights else cw
    | none => defaultWeights
  match collateral with
  | some c => if c = "" then some w else adjustWeightsForCollateral w c
  | none => some w

/-! ## Recommendations, context fallback, pipeline -/

/-- _generate_recommendations. -/
def generateRecommendations (final_score education_score career_score company_score
    tenure_score skills_score _bonus_score red_flags_penalty : ℚ) : List String :=
  [ if final_score ≥ 8.2 then "SUBMITTABLE CANDIDATE - Recommend to submit"
    else "RECOMMENDED REJECT - Below elite hiring bar" ]
  ++ (if education_score < 6 then
        [ "Education concerns - consider program strength and relevance" ] else [])
  ++ (if career_score < 6 then
        [ "Career trajectory concerns - limited progression visible" ] else [])
  ++ (if company_score < 6 then
        [ "Company relevance concerns - may not fit target environment" ] else [])
  ++ (if tenure_score < 6 then
        [ "Tenure stability concerns - frequent job changes" ] else [])
  ++ (if skills_score < 6 then
        [ "Skills gap - missing critical capabilities" ] else [])
  ++ (if red_flags_penalty < -5 then
        [ "Red flags detected - requires careful review" ] else [])

structure ContextInfo where
  industry : String
  company_type : String
  role_type : String
  role_level : String
  key_requirements : List String
  preferences : List String
  company_size : String
  growth_stage : String
deriving Repr, DecidableEq

/-- _detect_context_fallback. -/
def detectContextFallback (job_description : String) : ContextInfo :=
  let jd := lowerStr job_description
  let industry :=
    if containsAny jd [ "software", "engineer", "developer", "tech" ] then "tech"
    else if containsAny jd [ "healthcare", "medical", "hospital", "clinic" ] then "healthcare"
    else if containsAny jd [ "law", "legal", "attorney", "lawyer" ] then "law"
    else if containsAny jd [ "accounting", "cpa", "audit", "finance" ] then "finance"
    else "general"
  let companyType :=
    if containsAny jd [ "startup", "seed", "series", "early-stage" ] then "startup"
    else if containsAny jd [ "enterprise", "fortune", "large company" ] then "enterprise"
    else if containsAny jd [ "law firm", "llp", "amlaw" ] then "law_firm"
    else if containsAny jd [ "accounting firm", "big 4" ] then "accounting"
    else if containsAny jd [ "hospital", "healthcare system" ] then "healthcare"
    else "general"
  { industry := industry, company_type := companyType,
    role_type := detectRoleType job_description, role_level := "mid",
    key_requirements := [], preferences := [], company_size := "medium",
    growth_stage := "established" }

/-- Details dictionary of the result.  The constant smart-criteria,
skills-analysis and elite-evaluation fallback payloads carry no input
dependence beyond the skill lists and are represented by the two lists used to
build the skills-analysis fallback. -/
structure Details where
  education : EducationDetails
  career_trajectory : CareerOutcome
  company_relevance : CompanyOutcome
  tenure_stability : TenureOutcome
  most_important_skills : SkillsOutcome
  bonus_signals : BonusDetails
  red_flags : RedFlagsDetails
  weights_used : List (String × ℚ)
  context_detection : ContextInfo
  analysis_candidate_skills : List String
  analysis_required_skills : List String
  gpt4_enhanced : Bool
deriving Repr, DecidableEq

/-- FitScoreResult dataclass.  The timestamp is wall-clock output in Python
and is abstracted to the empty string here. -/
structure FitScoreResult where
  total_score : ℚ
  education_score : ℚ
  career_trajectory_score : ℚ
  company_relevance_score : ℚ
  tenure_stability_score : ℚ
  most_important_skills_score : ℚ
  bonus_signals_score : ℚ
  red_flags_penalty : ℚ
  details : Details
  recommendations : List String
  timestamp : String
deriving Repr, DecidableEq

/-- calculate_fitscore on the local heuristic path (use_gpt4 false or no
client): fallback context and skills analysis, local weight resolution, the
seven component evaluations, the weighted sum with the unweighted red-flag
penalty, and the recommendation list.  Every dictionary access that can raise
a KeyError is an Option bind. -/
def calculateFitscore (resume_text job_description : String) (collateral : Option String)
    (companyWeights : Option (List (String × ℚ))) : Option FitScoreResult := do
  let weights ← resolveLocalWeights companyWeights collateral
  let context := detectContextFallback job_description
  let edu := evaluateEducation resume_text job_description
  let car := evaluateCareerTrajectory resume_text job_description
  let com := evaluateCompanyRelevance resume_text job_description
  let ten := evaluateTenureStability resume_text job_description
  let ski := evaluateMostImportantSkills resume_text job_description
  let bon := evaluateBonusSignals resume_text job_description
  let red := evaluateRedFlags resume_text job_description
  let wEdu ← lookupW weights "education"
  let wCar ← lookupW weights "career_trajectory"
  let wCom ← lookupW weights "company_relevance"
  let wTen ← lookupW weights "tenure_stability"
  let wSki ← lookupW weights "most_important_skills"
  let wBon ← lookupW weights "bonus_signals"
  let finalScore := edu.1 * wEdu + car.1 * wCar + com.1 * wCom + ten.1 * wTen +
    ski.1 * wSki + bon.1 * wBon + red.1
  some
    { total_score := finalScore, education_score := edu.1, career_trajectory_score := car.1,
      company_relevance_score := com.1, tenure_stability_score := ten.1,
      most_important_skills_score := ski.1, bonus_signals_score := bon.1,
      red_flags_penalty := red.1,
      details :=
        { education := edu.2, career_trajectory := car.2, company_relevance := com.2,
          tenure_stability := ten.2, most_important_skills := ski.2, bonus_signals := bon.2,
          red_flags := red.2, weights_used := weights, context_detection := context,
          analysis_candidate_skills := extractCandidateSkills resume_text,
          analysis_required_skills := extractRequiredSkills job_description,
          gpt4_enhanced := false },
      recommendations := generateRecommendations finalScore edu.1 car.1 com.1 ten.1
        ski.1 bon.1 red.1,
      timestamp := "" }

/-- Serialized form produced by to_dict. -/
structure ResultDict where
  total_score : ℚ
  education_score : ℚ
  career_trajectory_score : ℚ
  company_relevance_score : ℚ
  tenure_stability_score : ℚ
  most_important_skills_score : ℚ
  bonus_signals_score : ℚ
  red_flags_penalty : ℚ
  details : Details
  recommendations : List String
  timestamp : String
  submittable : Bool
deriving Repr, DecidableEq

/-- to_dict: the serialization copies every field and derives submittable from
the total score and the fixed 8.2 cutoff. -/
def toDict (r : FitScoreResult) : ResultDict :=
  { total_score := r.total_score, education_score := r.education_score,
    career_trajectory_score := r.career_trajectory_score,
    company_relevance_score := r.company_relevance_score,
    tenure_stability_score := r.tenure_stability_score,
    most_important_skills_score := r.most_important_skills_score,
    bonus_signals_score := r.bonus_signals_score,
    red_flags_penalty := r.red_flags_penalty, details := r.details,
    recommendations := r.recommendations, timestamp := r.timestamp,
    submittable := decide (r.total_score ≥ 8.2) }

/-! ## Specification-side definitions

The following definitions restate formulas exactly as the specification
claims word them, to be compared with the code-side definitions above. -/

/-- Sum of the non-penalty weight entries of a weight dictionary (every entry
except red_flags), the quantity the specification requires to be one. -/
def nonPenaltySum (w : List (String × ℚ)) : ℚ :=
  ((w.filter (fun p => p.1 != "red_flags")).map (fun p => p.2)).sum

/-- Institution score exactly as claim C3 words it: category base plus the
additive bonuses of 0.5 for a specialty field match and 0.3 for a graduate
degree, the sum capped at 10 (Tier1), 8.5 (Tier2) or 6.5 (generic). -/
def scoreInstitutionClaim (institution degree_type field : String) : ℚ :=
  let il := lowerStr institution
  match firstMatchCat tier1Schools il with
  | some category =>
    min 10 (9.5 + (if field != "" && isSpecialtyMatch field category then 0.5 else 0) +
      (if gradDegree degree_type then 0.3 else 0))
  | none =>
    match firstMatchCat tier2Schools il with
    | some category =>
      min 8.5 (7.5 + (if field != "" && isSpecialtyMatch field category then 0.5 else 0) +
        (if gradDegree degree_type then 0.3 else 0))
    | none =>
      if specialtyProgramHit il field then 8
      else if containsSub il "university" || containsSub il "college" then
        min 6.5 (5 + (if gradDegree degree_type then 0.3 else 0))
      else 3

/-- Institution score as the amended claim words it: identical to the claim
except that the graduate bonus on the generic university/college branch is
0.5 rather than 0.3 (still capped at 6.5). -/
def scoreInstitutionAmended (institution degree_type field : String) : ℚ :=
  let il := lowerStr institution
  match firstMatchCat tier1Schools il with
  | some category =>
    min 10 (9.5 + (if field != "" && isSpecialtyMatch field category then 0.5 else 0) +
      (if gradDegree degree_type then 0.3 else 0))
  | none =>
    match firstMatchCat tier2Schools il with
    | some category =>
      min 8.5 (7.5 + (if field != "" && isSpecialtyMatch field category then 0.5 else 0) +
        (if gradDegree degree_type then 0.3 else 0))
    | none =>
      if specialtyProgramHit il field then 8
      else if containsSub il "university" || containsSub il "college" then
        min 6.5 (5 + (if gradDegree degree_type then 0.5 else 0))
      else 3

/-- Containment of some school of a tier table inside the lowered name. -/
def tierHit (cats : List (String × List String)) (institution : String) : Bool :=
  cats.any (fun c => c.2.any (fun s => containsSub (lowerStr institution) (lowerStr s)))

/-- Seven-rung career trajectory ladder exactly as claim C6 words it. -/
def ladderC6 (r0 r1 r2 : ℚ) (leadership ownership scope : ℕ) : ℚ :=
  if r0 ≥ 9 ∧ r1 ≥ 8 ∧ leadership ≥ 2 ∧ ownership ≥ 2 then 9.5
  else if r0 > r1 ∧ r1 > r2 ∧ r0 ≥ 7.5 ∧ leadership ≥ 1 then 9
  else if r0 > r2 ∧ r0 ≥ 7 ∧ scope ≥ 1 then 8
  else if r0 ≥ 6 ∧ ownership ≥ 1 then 7
  else if r0 ≥ 5 then 6
  else if r0 ≥ 4 then 4
  else 1

/-- Average per-position composite score, the quantity classified by the
fallback bands for fewer than three positions. -/
def avgPositionScore (l : List WorkEntry) : ℚ :=
  (l.map positionScore).sum / ((l.length : ℕ) : ℚ)

/-- Five-band threshold ladder on the match percentage, as claim C9 words it. -/
def skillBand (pct : ℚ) : ℚ :=
  if pct ≥ 90 then 9
  else if pct ≥ 80 then 7.5
  else if pct ≥ 70 then 6
  else if pct ≥ 50 then 4
  else 1

/-- Percentage of required skills matched in the resume. -/
def matchPercentage (resume_text job_description : String) : ℚ :=
  (((extractRequiredSkills job_description).filter
      (fun s => skillMatches s (extractCandidateSkills resume_text))).length : ℚ) /
    ((extractRequiredSkills job_description).length : ℚ) * 100

/-- Claim C7 exclusion trigger: the title contains intern, co-op or part-time
case-insensitively. -/
def internTitle3 (title : String) : Bool :=
  containsSub (lowerStr title) "intern" || containsSub (lowerStr title) "co-op" ||
    containsSub (lowerStr title) "part-time"

/-- Eligibility for the tenure average: not an excluded title and a positive
parsed tenure. -/
def tenureEligibleB (e : WorkEntry) : Bool :=
  !isExcludedTitle e.title && decide (0 < calculateTenureYears e.duration)

/-- Tenure average over the eligible entries only, as the claim requires. -/
def tenureAvgSpec (l : List WorkEntry) : ℚ :=
  ((l.filter tenureEligibleB).map (fun e => calculateTenureYears e.duration)).sum /
    (((l.filter tenureEligibleB).length : ℕ) : ℚ)

/-! ## Concrete inputs used by witnesses and counterexamples -/

/-- Resume whose document order is not recency order: end years 2012, 2024,
2017 in that document order. -/
def resumeRecency : String :=
  "Engineer\nIBM Corp\n2010-2012\n\nSenior Engineer\nGoogle Inc\n2020-2024\n\nStaff Engineer\nOracle Corp\n2015-2017"

def entryEngineerIBM : WorkEntry :=
  { title := "Engineer", company := "IBM Corp", duration := "2010-2012", description := "" }

def entrySeniorGoogle : WorkEntry :=
  { title := "Senior Engineer", company := "Google Inc", duration := "2020-2024",
    description := "" }

def entryStaffOracle : WorkEntry :=
  { title := "Staff Engineer", company := "Oracle Corp", duration := "2015-2017",
    description := "" }

/-- Resume with one internship position and one full-time position. -/
def resumeIntern : String :=
  "Engineering Intern\nGoogle Inc\n2019-2020\n\nSenior Engineer\nGoogle Inc\n2020-2024"

def entryInternGoogle : WorkEntry :=
  { title := "Engineering Intern", company := "Google Inc", duration := "2019-2020",
    description := "" }

/-- Resume with a single extracted position. -/
def resumeSenior : String := "Senior Engineer\nGoogle Inc\n2020-2024"

def dummyTenureDetails : TenureDetails :=
  { positions := [], average_tenure := 0, tenure_pattern := "", stability_score := 0,
    excluded_positions := [], internship_count := 0, elite_company_tenure := 0,
    tenure_level := "", elite_tenure_bonus := none, internship_bonus := none }

/-- Tenure details produced on resumeIntern, extracted for the witness. -/
def internRunDetails : TenureDetails :=
  match (evaluateTenureStability resumeIntern "").2 with
  | .ok d => d
  | .error _ _ => dummyTenureDetails

def dummyEducationDetails : EducationDetails :=
  { institutions := [], total_score := 0, tier_breakdown := [], strengths := [],
    concerns := [], tier := "" }

def dummyContextInfo : ContextInfo :=
  { industry := "", company_type := "", role_type := "", role_level := "",
    key_requirements := [], preferences := [], company_size := "", growth_stage := "" }

def dummyDetails : Details :=
  { education := dummyEducationDetails, career_trajectory := .error "" 0,
    company_relevance := .error "" 0, tenure_stability := .error "" 0,
    most_important_skills := .error "" 0, bonus_signals := { signals_found := [], total_score := 0 },
    red_flags := { flags_found := [], penalty := 0 }, weights_used := [],
    context_detection := dummyContextInfo, analysis_candidate_skills := [],
    analysis_required_skills := [], gpt4_enhanced := false }

def dummyResult : FitScoreResult :=
  { total_score := 0, education_score := 0, career_trajectory_score := 0,
    company_relevance_score := 0, tenure_stability_score := 0,
    most_important_skills_score := 0, bonus_signals_score := 0, red_flags_penalty := 0,
    details := dummyDetails, recommendations := [], timestamp := "" }

/-- Pipeline result on empty inputs with no custom weights, extracted for the
witness of the aggregation formula. -/
def emptyRunResult : FitScoreResult :=
  (calculateFitscore "" "" none none).getD dummyResult

/-! ## Helper lemmas -/

/-- The sort key is the constant Present, so the descending stable insertion
never moves an element past another. -/
theorem insertDescByKey_eq_cons (x : WorkEntry) (l : List WorkEntry) :
    insertDescByKey x l = x :: l := by
  cases l with
  | nil => rfl
  | cons y ys => simp [insertDescByKey, getEndDateKey, strLtB, listLtB, charLtB]

/-- The recency sort of the trajectory scorer is the identity: extraction
never sets an end_date, every key is the default Present, and the stable sort
keeps the document order. -/
theorem sortByEndDateDesc_id (l : List WorkEntry) : sortByEndDateDesc l = l := by
  induction l with
  | nil => rfl
  | cons x xs ih => rw [sortByEndDateDesc, ih, insertDescByKey_eq_cons]

theorem tenureLoop_excluded (l : List WorkEntry) :
    (tenureLoop l).excluded =
      (l.filter (fun x => isExcludedTitle x.title)).map mkExcludedRecord := by
  induction l with
  | nil => rfl
  | cons e rest ih =>
    by_cases he : isExcludedTitle e.title
    · simp [tenureLoop, he, ih]
    · by_cases hty : 0 < calculateTenureYears e.duration
      · simp [tenureLoop, he, hty, ih]
      · simp [tenureLoop, he, hty, ih]

theorem tenureLoop_internship (l : List WorkEntry) :
    (tenureLoop l).internship_count =
      (l.filter (fun x => isExcludedTitle x.title)).length := by
  induction l with
  | nil => rfl
  | cons e rest ih =>
    by_cases he : isExcludedTitle e.title
    · simp [tenureLoop, he, ih]
    · by_cases hty : 0 < calculateTenureYears e.duration
      · simp [tenureLoop, he, hty, ih]
      · simp [tenureLoop, he, hty, ih]

theorem tenureLoop_total (l : List WorkEntry) :
    (tenureLoop l).total_tenure =
      ((l.filter tenureEligibleB).map (fun e => calculateTenureYears e.duration)).sum := by
  induction l with
  | nil => rfl
  | cons e rest ih =>
    by_cases he : isExcludedTitle e.title
    · simp [tenureLoop, he, ih, tenureEligibleB]
    · by_cases hty : 0 < calculateTenureYears e.duration
      · simp [tenureLoop, he, hty, ih, tenureEligibleB]
      · simp [tenureLoop, he, hty, ih, tenureEligibleB]

theorem tenureLoop_valid (l : List WorkEntry) :
    (tenureLoop l).valid_positions = (l.filter tenureEligibleB).length := by
  induction l with
  | nil => rfl
  | cons e rest ih =>
    by_cases he : isExcludedTitle e.title
    · simp [tenureLoop, he, ih, tenureEligibleB]
    · by_cases hty : 0 < calculateTenureYears e.duration
      · simp [tenureLoop, he, hty, ih, tenureEligibleB]
      · simp [tenureLoop, he, hty, ih, tenureEligibleB]

/-- A tier table with some school contained in the name yields a category. -/
theorem firstMatchCat_isSome (cats : List (String × List String)) (institution : String)
    (h : tierHit cats institution = true) :
    ∃ cat, firstMatchCat cats (lowerStr institution) = some cat := by
  induction cats with
  | nil => simp [tierHit] at h
  | cons c rest ih =>
    by_cases hc : c.2.any (fun s => containsSub (lowerStr institution) (lowerStr s))
    · exact ⟨c.1, by simp [firstMatchCat, hc]⟩
    · have h2 : tierHit rest institution = true := by
        simp only [tierHit, List.any_cons, Bool.or_eq_true] at h
        rcases h with h | h
        · exact absurd h hc
        · simpa [tierHit] using h
      obtain ⟨cat, hcat⟩ := ih h2
      exact ⟨cat, by simpa [firstMatchCat, hc] using hcat⟩

theorem leadsWith_append_self (l t : List Char) : leadsWith l (l ++ t) = true := by
  induction l with
  | nil => rfl
  | cons c cs ih => simp [leadsWith, ih]

theorem strData_append (a b : String) : (a ++ b).data = a.data ++ b.data := by
  cases a
  cases b
  rfl

theorem startsWithStr_append (p t : String) : startsWithStr (p ++ t) p = true := by
  rw [startsWithStr, strData_append]
  exact leadsWith_append_self p.data t.data

/-! ## Claim theorems -/

/-- C1: the claim says every weight vector of the local heuristic path has its
six non-penalty weights summing to one within 1e-6, with red_flags excluded
from the sum and the renormalization.  The code violates this: the defaults
themselves sum to 0.95, and the normalizer divides by the total of all seven
values including the -0.15 penalty, so the startup-adjusted vector sums to
19/16 = 1.1875; both are far outside the 1e-6 tolerance. -/
theorem weight_sum_not_one :
    resolveLocalWeights none none = some defaultWeights ∧
    nonPenaltySum defaultWeights = 19/20 ∧
    (resolveLocalWeights none (some "startup")).map nonPenaltySum = some (19/16) ∧
    ¬ |(19 : ℚ)/20 - 1| ≤ 1/1000000 ∧
    ¬ |(19 : ℚ)/16 - 1| ≤ 1/1000000 := by
  refine ⟨rfl, by with_unfolding_all rfl, by with_unfolding_all rfl, ?_, ?_⟩
  · rw [show |(19 : ℚ)/20 - 1| = 1/20 by rw [abs_of_nonpos (by norm_num)]; norm_num]
    norm_num
  · rw [show |(19 : ℚ)/16 - 1| = 3/16 by rw [abs_of_nonneg (by norm_num)]; norm_num]
    norm_num

/-- C2: the claim says a malformed external weight vector (wrong keys) is
rejected and the default weights are used, with a complete ScoreResult always
returned.  The code does no validation: a nonempty vector is used as-is and
the lookup weights[education] raises a KeyError (modelled: the pipeline
returns none), while the same inputs with no external vector succeed. -/
theorem malformed_weights_fault :
    calculateFitscore "" "" none (some [ ("foo", 1) ]) = none ∧
    (calculateFitscore "" "" none none).isSome = true := by
  exact ⟨rfl, rfl⟩

/-- C3 counterexample: at a generic institution with a graduate degree the
code adds 0.5 (giving 5.5) where the claim prescribes a 0.3 bonus
(giving 5.3). -/
theorem score_institution_bonus_counterexample :
    scoreInstitution "Some College" "Master" "General" = 11/2 ∧
    scoreInstitutionClaim "Some College" "Master" "General" = 53/10 ∧
    scoreInstitution "Some College" "Master" "General" ≠
      scoreInstitutionClaim "Some College" "Master" "General" := by
  refine ⟨by with_unfolding_all rfl, by with_unfolding_all rfl, ?_⟩
  rw [show scoreInstitution "Some College" "Master" "General" = 11/2 by
        with_unfolding_all rfl,
      show scoreInstitutionClaim "Some College" "Master" "General" = 53/10 by
        with_unfolding_all rfl]
  norm_num

/-- C3 amended: score_institution returns a value in [3, 10] computed by the
claimed category bases, additive bonuses and caps, with the single amendment
that the graduate bonus on the generic university/college branch is 0.5
(capped at 6.5) rather than 0.3. -/
theorem score_institution_characterization (institution degree_type field : String) :
    scoreInstitution institution degree_type field =
      scoreInstitutionAmended institution degree_type field ∧
    3 ≤ scoreInstitution institution degree_type field ∧
    scoreInstitution institution degree_type field ≤ 10 := by
  cases h1 : firstMatchCat tier1Schools (lowerStr institution) with
  | some cat =>
    refine ⟨?_, ?_, ?_⟩ <;>
      simp only [scoreInstitution, scoreInstitutionAmended, h1] <;>
      split_ifs <;> norm_num [min_def]
  | none =>
    cases h2 : firstMatchCat tier2Schools (lowerStr institution) with
    | some cat =>
      refine ⟨?_, ?_, ?_⟩ <;>
        simp only [scoreInstitution, scoreInstitutionAmended, h1, h2] <;>
        split_ifs <;> norm_num [min_def]
    | none =>
      refine ⟨?_, ?_, ?_⟩ <;>
        simp only [scoreInstitution, scoreInstitutionAmended, h1, h2] <;>
        split_ifs <;> norm_num [min_def]

/-- C4: the claim says the trajectory scorer re-sorts the extracted entries
most-recent-first by a derived end_date.  No end_date is ever derived, so the
sort key is the constant Present and the stable sort is the identity: on a
resume whose document order is 2012, 2024, 2017 the order fed to the
trajectory analysis stays the document order rather than the recency order. -/
theorem trajectory_document_order :
    (∀ l : List WorkEntry, sortByEndDateDesc l = l) ∧
    (sortByEndDateDesc (extractWorkExperience resumeRecency)).map (fun e => e.duration) =
      [ "2010-2012", "2020-2024", "2015-2017" ] ∧
    ([ "2010-2012", "2020-2024", "2015-2017" ] : List String) ≠
      [ "2020-2024", "2015-2017", "2010-2012" ] := by
  refine ⟨sortByEndDateDesc_id, rfl, by decide⟩

/-- C5: whenever the pipeline yields a result, its total score is the sum
over the six positive factors of the component score times that factor entry
of the weight dictionary actually used, plus the red-flag penalty added
unweighted (no red_flags weight appears in the sum), and the serialized
submittable boolean equals the comparison of the total with 8.2. -/
theorem total_score_formula (resume_text job_description : String) (collateral : Option String)
    (companyWeights : Option (List (String × ℚ))) (r : FitScoreResult)
    (h : calculateFitscore resume_text job_description collateral companyWeights = some r) :
    r.total_score =
      r.education_score * ((lookupW r.details.weights_used "education").getD 0) +
      r.career_trajectory_score * ((lookupW r.details.weights_used "career_trajectory").getD 0) +
      r.company_relevance_score * ((lookupW r.details.weights_used "company_relevance").getD 0) +
      r.tenure_stability_score * ((lookupW r.details.weights_used "tenure_stability").getD 0) +
      r.most_important_skills_score *
        ((lookupW r.details.weights_used "most_important_skills").getD 0) +
      r.bonus_signals_score * ((lookupW r.details.weights_used "bonus_signals").getD 0) +
      r.red_flags_penalty ∧
    (toDict r).submittable = decide (r.total_score ≥ 8.2) := by
  simp only [calculateFitscore, Option.bind_eq_bind'] at h
  cases hw : resolveLocalWeights companyWeights collateral with
  | none => rw [hw] at h; simp at h
  | some w =>
  rw [hw] at h
  simp only [Option.some_bind'] at h
  cases h1 : lookupW w "education" with
  | none => rw [h1] at h; simp at h
  | some wEdu =>
  rw [h1] at h
  simp only [Option.some_bind'] at h
  cases h2 : lookupW w "career_trajectory" with
  | none => rw [h2] at h; simp at h
  | some wCar =>
  rw [h2] at h
  simp only [Option.some_bind'] at h
  cases h3 : lookupW w "company_relevance" with
  | none => rw [h3] at h; simp at h
  | some wCom =>
  rw [h3] at h
  simp only [Option.some_bind'] at h
  cases h4 : lookupW w "tenure_stability" with
  | none => rw [h4] at h; simp at h
  | some wTen =>
  rw [h4] at h
  simp only [Option.some_bind'] at h
  cases h5 : lookupW w "most_important_skills" with
  | none => rw [h5] at h; simp at h
  | some wSki =>
  rw [h5] at h
  simp only [Option.some_bind'] at h
  cases h6 : lookupW w "bonus_signals" with
  | none => rw [h6] at h; simp at h
  | some wBon =>
  rw [h6] at h
  simp only [Option.some_bind', Option.some.injEq] at h
  subst h
  refine ⟨?_, rfl⟩
  simp [h1, h2, h3, h4, h5, h6]

/-- C5 witness: the aggregation formula instantiated on the concrete pipeline
run over empty inputs with the default weights. -/
theorem total_score_formula_check :
    calculateFitscore "" "" none none = some emptyRunResult ∧
    (emptyRunResult.total_score =
      emptyRunResult.education_score *
        ((lookupW emptyRunResult.details.weights_used "education").getD 0) +
      emptyRunResult.career_trajectory_score *
        ((lookupW emptyRunResult.details.weights_used "career_trajectory").getD 0) +
      emptyRunResult.company_relevance_score *
        ((lookupW emptyRunResult.details.weights_used "company_relevance").getD 0) +
      emptyRunResult.tenure_stability_score *
        ((lookupW emptyRunResult.details.weights_used "tenure_stability").getD 0) +
      emptyRunResult.most_important_skills_score *
        ((lookupW emptyRunResult.details.weights_used "most_important_skills").getD 0) +
      emptyRunResult.bonus_signals_score *
        ((lookupW emptyRunResult.details.weights_used "bonus_signals").getD 0) +
      emptyRunResult.red_flags_penalty ∧
    (toDict emptyRunResult).submittable = decide (emptyRunResult.total_score ≥ 8.2)) := by
  have hrun : calculateFitscore "" "" none none = some emptyRunResult := by
    with_unfolding_all rfl
  exact ⟨hrun, total_score_formula "" "" none none emptyRunResult hrun⟩

/-- C6: with at least three extracted positions, the career trajectory score
is the 7-rung ladder applied top-down to the first three per-position
composite scores in trajectory order and the leadership, ownership and scope
counts aggregated over all positions. -/
theorem career_ladder_three_positions (resume_text job_description : String)
    (e0 e1 e2 : WorkEntry) (rest : List WorkEntry)
    (h : extractWorkExperience resume_text = e0 :: e1 :: e2 :: rest) :
    (evaluateCareerTrajectory resume_text job_description).1 =
      ladderC6 (positionScore e0) (positionScore e1) (positionScore e2)
        ((e0 :: e1 :: e2 :: rest).countP leadB)
        ((e0 :: e1 :: e2 :: rest).countP ownB)
        ((e0 :: e1 :: e2 :: rest).countP scopeB) := by
  simp only [evaluateCareerTrajectory, h, sortByEndDateDesc_id, List.map_cons]
  unfold ladderC6
  split_ifs <;> rfl

/-- C6 witness: the ladder theorem instantiated on the three-position resume;
rungs one to four fail (scores 5, 7, 7 with one leadership indicator and no
ownership or scope), rung five fires, giving 6. -/
theorem career_ladder_three_positions_check :
    (evaluateCareerTrajectory resumeRecency "").1 =
      ladderC6 (positionScore entryEngineerIBM) (positionScore entrySeniorGoogle)
        (positionScore entryStaffOracle)
        (([ entryEngineerIBM, entrySeniorGoogle, entryStaffOracle ]).countP leadB)
        (([ entryEngineerIBM, entrySeniorGoogle, entryStaffOracle ]).countP ownB)
        (([ entryEngineerIBM, entrySeniorGoogle, entryStaffOracle ]).countP scopeB) ∧
    (evaluateCareerTrajectory resumeRecency "").1 = 6 := by
  refine ⟨career_ladder_three_positions resumeRecency "" entryEngineerIBM entrySeniorGoogle
    entryStaffOracle [] (by with_unfolding_all rfl), by with_unfolding_all rfl⟩

/-- Inversion of the scoring tail on the non-error path: the details record
carries the loop accumulators and average unchanged. -/
theorem tenureResult_ok_fields (acc : TenureAcc) (d : TenureDetails)
    (hd : (tenureResult acc).2 = TenureOutcome.ok d) :
    d.excluded_positions = acc.excluded ∧ d.internship_count = acc.internship_count ∧
    d.average_tenure = acc.total_tenure / (acc.valid_positions : ℚ) := by
  unfold tenureResult at hd
  split at hd
  · simp at hd
  · dsimp only at hd
    split_ifs at hd <;>
      (simp only [TenureOutcome.ok.injEq] at hd; subst hd; exact ⟨rfl, rfl, rfl⟩)

/-- C7: an extracted entry whose title contains intern, co-op or part-time
(case-insensitively) satisfies the loop exclusion condition, and on the
normal path it is recorded in the excluded-positions list and counted in the
internship count, while the tenure average is computed over only the entries
that are not excluded and have positive parsed tenure, so the excluded entry
never contributes regardless of its duration. -/
theorem tenure_internship_exclusion (resume_text job_description : String) (e : WorkEntry)
    (hmem : e ∈ extractWorkExperience resume_text)
    (hkw : internTitle3 e.title = true) :
    isExcludedTitle e.title = true ∧
    ∀ d, (evaluateTenureStability resume_text job_description).2 = TenureOutcome.ok d →
      mkExcludedRecord e ∈ d.excluded_positions ∧
      d.internship_count =
        ((extractWorkExperience resume_text).filter (fun x => isExcludedTitle x.title)).length ∧
      d.average_tenure = tenureAvgSpec (extractWorkExperience resume_text) := by
  have hexcl : isExcludedTitle e.title = true := by
    simp only [internTitle3, Bool.or_eq_true] at hkw
    rcases hkw with (hk | hk) | hk <;>
      simp [isExcludedTitle, excludeTenureWords, hk]
  refine ⟨hexcl, ?_⟩
  intro d hd
  unfold evaluateTenureStability at hd
  split at hd
  · simp at hd
  · obtain ⟨hex, hic, hav⟩ := tenureResult_ok_fields _ d hd
    refine ⟨?_, ?_, ?_⟩
    · rw [hex, tenureLoop_excluded]
      exact List.mem_map_of_mem _ (List.mem_filter.mpr ⟨hmem, hexcl⟩)
    · rw [hic, tenureLoop_internship]
    · rw [hav, tenureLoop_total, tenureLoop_valid, tenureAvgSpec]

/-- C7 witness: the exclusion theorem instantiated on the resume holding an
internship entry and one four-year full-time entry. -/
theorem tenure_internship_exclusion_check :
    (evaluateTenureStability resumeIntern "").2 = TenureOutcome.ok internRunDetails ∧
    (mkExcludedRecord entryInternGoogle ∈ internRunDetails.excluded_positions ∧
     internRunDetails.internship_count =
       ((extractWorkExperience resumeIntern).filter (fun x => isExcludedTitle x.title)).length ∧
     internRunDetails.average_tenure = tenureAvgSpec (extractWorkExperience resumeIntern)) := by
  have hok : (evaluateTenureStability resumeIntern "").2 = TenureOutcome.ok internRunDetails := by
    with_unfolding_all rfl
  have hmem : entryInternGoogle ∈ extractWorkExperience resumeIntern := by
    rw [show extractWorkExperience resumeIntern = [ entryInternGoogle, entrySeniorGoogle ]
      from by with_unfolding_all rfl]
    exact List.mem_cons_self _ _
  exact ⟨hok,
    (tenure_internship_exclusion resumeIntern "" entryInternGoogle hmem
      (by with_unfolding_all rfl)).2 internRunDetails hok⟩

/-- C8: the Tier1 tables are consulted first; a name matching both a Tier1
and a Tier2 entry is classified Tier 1, and the institution scorer uses the
Tier1 base, so the score lies in the Tier1 band [9.5, 10]. -/
theorem tier1_wins_precedence (institution degree_type field : String)
    (h1 : tierHit tier1Schools institution = true)
    (_h2 : tierHit tier2Schools institution = true) :
    startsWithStr (getInstitutionTier institution) "Tier 1 - " = true ∧
    9.5 ≤ scoreInstitution institution degree_type field ∧
    scoreInstitution institution degree_type field ≤ 10 := by
  obtain ⟨cat, hcat⟩ := firstMatchCat_isSome tier1Schools institution h1
  refine ⟨?_, ?_, ?_⟩
  · simp only [getInstitutionTier, hcat]
    exact startsWithStr_append _ _
  · simp only [scoreInstitution, hcat]
    split_ifs <;> norm_num [min_def]
  · simp only [scoreInstitution, hcat]
    split_ifs <;> norm_num [min_def]

/-- C8 witness: the precedence theorem instantiated on a crafted name that
contains both MIT (Tier1) and UCLA (Tier2). -/
theorem tier1_wins_precedence_check :
    startsWithStr (getInstitutionTier "MIT UCLA University") "Tier 1 - " = true ∧
    9.5 ≤ scoreInstitution "MIT UCLA University" "BS" "Math" ∧
    scoreInstitution "MIT UCLA University" "BS" "Math" ≤ 10 :=
  tier1_wins_precedence "MIT UCLA University" "BS" "Math" (by with_unfolding_all rfl)
    (by with_unfolding_all rfl)

/-- C9: with no recognized required skill in the job description the skills
score is exactly 5; otherwise it is the 5-band threshold ladder applied to
the match percentage, hence one of 1, 4, 6, 7.5, 9. -/
theorem skills_match_bands (resume_text job_description : String) :
    (evaluateMostImportantSkills resume_text job_description).1 =
      (if (extractRequiredSkills job_description).isEmpty then 5
       else skillBand (matchPercentage resume_text job_description)) ∧
    (evaluateMostImportantSkills resume_text job_description).1 ∈
      ([ 5, 9, 7.5, 6, 4, 1 ] : List ℚ) := by
  by_cases hreq : (extractRequiredSkills job_description).isEmpty = true
  · refine ⟨?_, ?_⟩ <;> · simp [evaluateMostImportantSkills, hreq]
  · constructor
    · simp only [evaluateMostImportantSkills, hreq, Bool.false_eq_true, if_false,
        skillBand, matchPercentage, Bool.not_eq_true]
    · simp only [evaluateMostImportantSkills, hreq, Bool.false_eq_true, if_false,
        skillBand, matchPercentage, Bool.not_eq_true]
      split_ifs <;> simp

/-- C10: with exactly one or two extracted positions the career trajectory
score is the 3-band classification of the average composite score, hence one
of 8, 6 or 4, and never below 4; the minimum 1 is unreachable here. -/
theorem career_few_positions_bands (resume_text job_description : String)
    (h : (extractWorkExperience resume_text).length = 1 ∨
         (extractWorkExperience resume_text).length = 2) :
    (evaluateCareerTrajectory resume_text job_description).1 =
      (if avgPositionScore (extractWorkExperience resume_text) ≥ 8 then 8
       else if avgPositionScore (extractWorkExperience resume_text) ≥ 6 then 6 else 4) ∧
    (evaluateCareerTrajectory resume_text job_description).1 ∈ ([ 8, 6, 4 ] : List ℚ) ∧
    (4 : ℚ) ≤ (evaluateCareerTrajectory resume_text job_description).1 := by
  rcases h with h | h
  · obtain ⟨e, he⟩ := List.length_eq_one.mp h
    refine ⟨?_, ?_, ?_⟩ <;>
      simp only [evaluateCareerTrajectory, he, sortByEndDateDesc_id, avgPositionScore,
        List.map_cons, List.map_nil, List.length_cons, List.length_nil] <;>
      split_ifs <;> simp_all <;> norm_num
  · obtain ⟨a, b, hab⟩ := List.length_eq_two.mp h
    refine ⟨?_, ?_, ?_⟩ <;>
      simp only [evaluateCareerTrajectory, hab, sortByEndDateDesc_id, avgPositionScore,
        List.map_cons, List.map_nil, List.length_cons, List.length_nil] <;>
      split_ifs <;> simp_all <;> norm_num

/-- C10 witness: the band theorem instantiated on the single-position resume;
the single composite score is 7, so the score is the middle band 6. -/
theorem career_few_positions_bands_check :
    (evaluateCareerTrajectory resumeSenior "").1 =
      (if avgPositionScore (extractWorkExperience resumeSenior) ≥ 8 then 8
       else if avgPositionScore (extractWorkExperience resumeSenior) ≥ 6 then 6 else 4) ∧
    (evaluateCareerTrajectory resumeSenior "").1 ∈ ([ 8, 6, 4 ] : List ℚ) ∧
    (4 : ℚ) ≤ (evaluateCareerTrajectory resumeSenior "").1 :=
  career_few_positions_bands resumeSenior "" (Or.inl (by with_unfolding_all rfl))

end FitScore
